import Mathlib

/-!
Verification of the bird-cursor system (`src/bird-cursor.js`).

The physics integrator, the flap hysteresis, the animation-state derivation
and the configuration/theme layer are embedded shallowly: numbers become
real numbers, the per-frame mutation of the `BirdCursorSystem` fields becomes
a pure state-passing step function, and the one-shot `setTimeout` used by the
flap hysteresis becomes an explicit `Timer` value that is appended to a list
of pending timers and fired by an explicit function.
-/

namespace BirdCursor

/-- Plain 2D record used for `position`, `velocity`, `acceleration`, `target`. -/
@[ext]
structure Vec2 where
  x : ℝ
  y : ℝ

/-- The tunable physics configuration (`this.config` in the source). -/
@[ext]
structure PhysicsConfig where
  springStrength : ℝ
  dampening : ℝ
  maxSpeed : ℝ
  accelerationRate : ℝ
  flappingThreshold : ℝ
  baseScale : ℝ

/-- The physics fields of the system: `position`, `velocity`, `acceleration`
and the pointer `target`. -/
@[ext]
structure PhysState where
  position : Vec2
  velocity : Vec2
  acceleration : Vec2
  target : Vec2

/-- The derived animation fields (`this.animationState` in the source). -/
@[ext]
structure AnimState where
  isFlapping : Bool
  flapIntensity : ℝ
  direction : ℝ
  rotation : ℝ
  pitchRotation : ℝ
  scale : ℝ

/-- A pending one-shot delayed check created by `setTimeout` inside
`updateFlapping`.  The closure captures the `velocity` argument of the call,
so the timer carries that captured magnitude; the delay is the fixed 150ms. -/
@[ext]
structure Timer where
  capturedVelocity : ℝ
  delayMs : ℝ

/-- A partial configuration object, as passed to `updatePhysicsConfig`:
each field is either absent (`none`) or present with a value (`some`).
`Object.assign` overwrites exactly the present fields. -/
structure ConfigPatch where
  springStrength : Option ℝ
  dampening : Option ℝ
  maxSpeed : Option ℝ
  accelerationRate : Option ℝ
  flappingThreshold : Option ℝ
  baseScale : Option ℝ

/-- The lifecycle/config/theme part of the system state.  `hasRenderTargets`
records whether `birdElement`/`containerElement` were found;
`containerClasses` is the container's CSS class list. -/
structure SystemState where
  isInitialized : Bool
  hasRenderTargets : Bool
  containerClasses : List String
  config : PhysicsConfig

/-- `Object.keys(this.themes)`, in declaration order. -/
def themeNames : List String := ["robin", "bluebird", "cardinal"]

/-- `classList.remove(t)`: drop every occurrence of the token. -/
def classListRemove (cls : List String) (t : String) : List String :=
  cls.filter (fun c => c ≠ t)

/-- `classList.add(t)`: append the token unless already present. -/
def classListAdd (cls : List String) (t : String) : List String :=
  if t ∈ cls then cls else cls ++ [t]

/-- The class-list part of `setTheme`: first remove every known theme class,
then add the requested one if it is a known theme, otherwise warn (the `Bool`
result is the warning flag). -/
def setThemeClasses (cls : List String) (name : String) : List String × Bool :=
  let cleared := themeNames.foldl classListRemove cls
  if name ∈ themeNames then (classListAdd cleared name, false) else (cleared, true)

noncomputable section

/-- The constructor's `this.config`. -/
def defaultConfig : PhysicsConfig :=
  ⟨0.12, 0.85, 15, 0.2, 1.5, 0.45⟩

/-- The constructor's `this.animationState` (its `scale` is the constructor
config's `baseScale`, `0.45`). -/
def initialAnimState : AnimState :=
  ⟨false, 1, 1, 0, 0, 0.45⟩

/-- `Math.sqrt(v.x ** 2 + v.y ** 2)`, the speed expression used both for the
clamp and for `velocityMagnitude`. -/
def speedOf (v : Vec2) : ℝ := Real.sqrt (v.x ^ 2 + v.y ^ 2)

/-- Lines 162-168: if `currentSpeed > maxSpeed`, rescale the velocity by
`maxSpeed / currentSpeed`. -/
def clampVelocity (cfg : PhysicsConfig) (v : Vec2) : Vec2 :=
  if speedOf v > cfg.maxSpeed then
    ⟨v.x * (cfg.maxSpeed / speedOf v), v.y * (cfg.maxSpeed / speedOf v)⟩
  else v

/-- Lines 151-152 (one component): `acceleration += (delta * accelerationRate
- acceleration) * 0.1`. -/
def smoothAccel (cfg : PhysicsConfig) (delta accel : ℝ) : ℝ :=
  accel + (delta * cfg.accelerationRate - accel) * 0.1

/-- Lines 155-160 (one component): `velocity += acceleration * springStrength`
followed by `velocity *= dampening`. -/
def springDamp (cfg : PhysicsConfig) (vel accel : ℝ) : ℝ :=
  (vel + accel * cfg.springStrength) * cfg.dampening

/-- Lines 193-206, `updateFlapping(velocity)`.  Above the threshold it sets
the flapping fields in the same call and schedules nothing; at or below the
threshold it leaves the animation state untouched and schedules a single
150ms one-shot timer capturing the `velocity` argument. -/
def updateFlapping (cfg : PhysicsConfig) (velocity : ℝ) (anim : AnimState) :
    AnimState × List Timer :=
  if velocity > cfg.flappingThreshold then
    ({ anim with
        isFlapping := true,
        flapIntensity := min 1.5 (velocity / cfg.flappingThreshold) }, [])
  else
    (anim, [⟨velocity, 150⟩])

/-- The body of the `setTimeout` callback (lines 199-204): when the timer
fires it re-reads the captured velocity and compares it against the
`flappingThreshold` of the configuration current at fire time. -/
def fireFlapTimer (cfg : PhysicsConfig) (t : Timer) (anim : AnimState) : AnimState :=
  if t.capturedVelocity ≤ cfg.flappingThreshold then
    { anim with isFlapping := false, flapIntensity := 1 }
  else anim

/-- Lines 145-188, `updatePhysics()`: acceleration smoothing, spring and
dampening on the velocity, speed clamp, position integration, the direction
dead zone, the flapping update and the velocity-dependent scale.  The result
is the new physics state, the new animation state and the timers scheduled by
the flapping update. -/
def updatePhysics (cfg : PhysicsConfig) (st : PhysState) (anim : AnimState) :
    PhysState × AnimState × List Timer :=
  let ax := smoothAccel cfg (st.target.x - st.position.x) st.acceleration.x
  let ay := smoothAccel cfg (st.target.y - st.position.y) st.acceleration.y
  let vel := clampVelocity cfg
    ⟨springDamp cfg st.velocity.x ax, springDamp cfg st.velocity.y ay⟩
  let velocityMagnitude := speedOf vel
  let dir := if |vel.x| > 0.1 then (if vel.x > 0 then (1 : ℝ) else -1) else anim.direction
  let fl := updateFlapping cfg velocityMagnitude { anim with direction := dir }
  let dynamicScale := max 0.9 (1 - velocityMagnitude * 0.001)
  (⟨⟨st.position.x + vel.x, st.position.y + vel.y⟩, vel, ⟨ax, ay⟩, st.target⟩,
   { fl.1 with scale := cfg.baseScale * dynamicScale }, fl.2)

/-- `this.presets`, keyed by name. -/
def presetLookup (name : String) : Option PhysicsConfig :=
  if name = "energetic" then some ⟨0.18, 0.8, 20, 0.3, 1.0, 0.5⟩
  else if name = "gentle" then some ⟨0.08, 0.9, 10, 0.15, 2.0, 0.4⟩
  else if name = "balanced" then some ⟨0.12, 0.85, 15, 0.2, 1.5, 0.45⟩
  else none

/-- Lines 250-257, `setPreset(presetName)`: a known preset is
`Object.assign`ed onto the config (presets name all six fields, so the whole
config is overwritten); an unknown name warns (the `Bool` flag) and changes
nothing. -/
def setPreset (name : String) (st : SystemState) : SystemState × Bool :=
  match presetLookup name with
  | some p => ({ st with config := p }, false)
  | none => (st, true)

/-- Lines 262-278, `setTheme(themeName)`: an early return when the container
element is absent, otherwise the class-list update of `setThemeClasses`. -/
def setTheme (name : String) (st : SystemState) : SystemState × Bool :=
  if st.hasRenderTargets then
    let r := setThemeClasses st.containerClasses name
    ({ st with containerClasses := r.1 }, r.2)
  else (st, false)

/-- Lines 283-285, `updatePhysicsConfig(newConfig)`: `Object.assign` of a
partial object onto the config — present fields overwrite, absent fields
keep their current values. -/
def updatePhysicsConfig (cfg : PhysicsConfig) (p : ConfigPatch) : PhysicsConfig :=
  ⟨p.springStrength.getD cfg.springStrength,
   p.dampening.getD cfg.dampening,
   p.maxSpeed.getD cfg.maxSpeed,
   p.accelerationRate.getD cfg.accelerationRate,
   p.flappingThreshold.getD cfg.flappingThreshold,
   p.baseScale.getD cfg.baseScale⟩

/-- Lines 92-110, `init()`: a no-op when already initialized; when the render
targets are missing it logs an error and returns with nothing changed;
otherwise it marks the system initialized. -/
def init (renderTargetsPresent : Bool) (st : SystemState) : SystemState :=
  if st.isInitialized then st
  else if renderTargetsPresent then
    { st with isInitialized := true, hasRenderTargets := true }
  else st

/-- The freshly constructed system: not initialized, no render targets yet,
constructor config. -/
def freshSystem : SystemState := ⟨false, false, [], defaultConfig⟩

/-- One driver tick restricted to the fields the physics feeds back into:
the physics state and the animation state. -/
def stepSystem (cfg : PhysicsConfig) (p : PhysState × AnimState) :
    PhysState × AnimState :=
  ((updatePhysics cfg p.1 p.2).1, (updatePhysics cfg p.1 p.2).2.1)

/-- `n` driver ticks from a start state, with a fixed target and config. -/
def ticks (cfg : PhysicsConfig) (start : PhysState × AnimState) :
    ℕ → PhysState × AnimState
  | 0 => start
  | n + 1 => stepSystem cfg (ticks cfg start n)

/-- A test configuration with dampening `1/2 ∈ (0,1)` whose spring/
acceleration coupling is strong enough that the integrator has an exact
period-2 orbit. -/
def cfgOscillate : PhysicsConfig := ⟨114, 1/2, 15, 1, 3/2, 9/20⟩

/-- A state on the period-2 orbit of `cfgOscillate` (target at the origin). -/
def stOscillate : PhysState := ⟨⟨1, 0⟩, ⟨2, 0⟩, ⟨1/19, 0⟩, ⟨0, 0⟩⟩

/-- A test configuration with the default dampening `0.85 ∈ (0,1)` for which
the integrator contracts along an eigenvector with eigenvalue `4/5`. -/
def cfgConverge : PhysicsConfig := ⟨25/272, 17/20, 15, 1/5, 3/2, 9/20⟩

/-- An eigenvector state of `cfgConverge` (target at the origin); every tick
scales it by `4/5`. -/
def stConverge : PhysState := ⟨⟨1, 0⟩, ⟨-(1/4), 0⟩, ⟨1/5, 0⟩, ⟨0, 0⟩⟩

end

/-! ### Basic lemmas about the embedded operations -/

lemma speedOf_single (x : ℝ) : speedOf ⟨x, 0⟩ = |x| := by
  unfold speedOf
  norm_num [Real.sqrt_sq_eq_abs]

lemma speedOf_nonneg (v : Vec2) : 0 ≤ speedOf v := Real.sqrt_nonneg _

lemma speedOf_smul (c : ℝ) (v : Vec2) :
    speedOf ⟨v.x * c, v.y * c⟩ = |c| * speedOf v := by
  unfold speedOf
  rw [show (v.x * c) ^ 2 + (v.y * c) ^ 2 = c ^ 2 * (v.x ^ 2 + v.y ^ 2) by ring,
    Real.sqrt_mul (sq_nonneg c), Real.sqrt_sq_eq_abs]

lemma clampVelocity_of_le {cfg : PhysicsConfig} {v : Vec2}
    (h : speedOf v ≤ cfg.maxSpeed) : clampVelocity cfg v = v := by
  unfold clampVelocity
  rw [if_neg (not_lt.2 h)]

lemma clampVelocity_speed_le {cfg : PhysicsConfig} (hms : 0 ≤ cfg.maxSpeed)
    (v : Vec2) : speedOf (clampVelocity cfg v) ≤ cfg.maxSpeed := by
  unfold clampVelocity
  split
  case isTrue h =>
    have hv : 0 < speedOf v := lt_of_le_of_lt hms h
    rw [speedOf_smul, abs_of_nonneg (div_nonneg hms hv.le),
      div_mul_cancel₀ _ hv.ne']
  case isFalse h => exact not_lt.1 h

lemma smoothAccel_zero (cfg : PhysicsConfig) : smoothAccel cfg (0 - 0) 0 = 0 := by
  unfold smoothAccel; ring

lemma springDamp_zero (cfg : PhysicsConfig) : springDamp cfg 0 0 = 0 := by
  unfold springDamp; ring

/-! ### Projection lemmas for `updatePhysics` (all definitional) -/

lemma updatePhysics_acceleration (cfg : PhysicsConfig) (st : PhysState)
    (anim : AnimState) :
    (updatePhysics cfg st anim).1.acceleration =
      ⟨smoothAccel cfg (st.target.x - st.position.x) st.acceleration.x,
       smoothAccel cfg (st.target.y - st.position.y) st.acceleration.y⟩ := rfl

lemma updatePhysics_velocity (cfg : PhysicsConfig) (st : PhysState)
    (anim : AnimState) :
    (updatePhysics cfg st anim).1.velocity =
      clampVelocity cfg
        ⟨springDamp cfg st.velocity.x
            (smoothAccel cfg (st.target.x - st.position.x) st.acceleration.x),
         springDamp cfg st.velocity.y
            (smoothAccel cfg (st.target.y - st.position.y) st.acceleration.y)⟩ := rfl

lemma updatePhysics_position (cfg : PhysicsConfig) (st : PhysState)
    (anim : AnimState) :
    (updatePhysics cfg st anim).1.position =
      ⟨st.position.x + (updatePhysics cfg st anim).1.velocity.x,
       st.position.y + (updatePhysics cfg st anim).1.velocity.y⟩ := rfl

lemma updatePhysics_target (cfg : PhysicsConfig) (st : PhysState)
    (anim : AnimState) :
    (updatePhysics cfg st anim).1.target = st.target := rfl

lemma updateFlapping_direction (cfg : PhysicsConfig) (v : ℝ) (anim : AnimState) :
    (updateFlapping cfg v anim).1.direction = anim.direction := by
  unfold updateFlapping
  split <;> rfl

lemma withScale_direction (a : AnimState) (s : ℝ) :
    ({ a with scale := s }).direction = a.direction := rfl

lemma withDirection_direction (a : AnimState) (d : ℝ) :
    ({ a with direction := d }).direction = d := rfl

lemma updatePhysics_anim (cfg : PhysicsConfig) (st : PhysState) (anim : AnimState) :
    (updatePhysics cfg st anim).2.1 =
      { (updateFlapping cfg (speedOf ((updatePhysics cfg st anim).1.velocity))
          { anim with
              direction :=
                if |((updatePhysics cfg st anim).1.velocity).x| > 0.1 then
                  (if ((updatePhysics cfg st anim).1.velocity).x > 0 then (1 : ℝ) else -1)
                else anim.direction }).1 with
        scale := cfg.baseScale *
          max 0.9 (1 - speedOf ((updatePhysics cfg st anim).1.velocity) * 0.001) } := rfl

lemma updatePhysics_direction (cfg : PhysicsConfig) (st : PhysState)
    (anim : AnimState) :
    (updatePhysics cfg st anim).2.1.direction =
      if |(updatePhysics cfg st anim).1.velocity.x| > 0.1 then
        (if (updatePhysics cfg st anim).1.velocity.x > 0 then (1 : ℝ) else -1)
      else anim.direction := by
  rw [updatePhysics_anim, withScale_direction, updateFlapping_direction,
    withDirection_direction]

/-! ### Claim theorems -/

/-- C4: whenever the velocity magnitude is strictly above `flappingThreshold`,
`updateFlapping` sets `isFlapping = true` in the same call and sets
`flapIntensity = min 1.5 (velocity / flappingThreshold)`. -/
theorem C4_flap_on_instant (cfg : PhysicsConfig) (v : ℝ) (anim : AnimState)
    (h : v > cfg.flappingThreshold) :
    (updateFlapping cfg v anim).1.isFlapping = true ∧
    (updateFlapping cfg v anim).1.flapIntensity =
      min 1.5 (v / cfg.flappingThreshold) := by
  unfold updateFlapping
  rw [if_pos h]
  exact ⟨rfl, rfl⟩

/-- Witness for C4 at the default configuration with velocity magnitude 3. -/
theorem C4_flap_on_instant_witness :
    (3 : ℝ) > defaultConfig.flappingThreshold ∧
    ((updateFlapping defaultConfig 3 initialAnimState).1.isFlapping = true ∧
     (updateFlapping defaultConfig 3 initialAnimState).1.flapIntensity =
       min 1.5 (3 / defaultConfig.flappingThreshold)) := by
  refine ⟨by norm_num [defaultConfig], ?_⟩
  exact C4_flap_on_instant defaultConfig 3 initialAnimState (by norm_num [defaultConfig])

/-- C5: at or below the threshold `updateFlapping` leaves the animation state
completely unchanged in the same call and schedules exactly one 150ms timer
carrying the velocity magnitude captured at schedule time; previously pending
timers all survive the call (nothing is ever canceled); and when a timer
fires, `fireFlapTimer` compares the captured magnitude (not a re-measured
one) against the threshold current at fire time, clearing
`isFlapping`/`flapIntensity` exactly when the captured magnitude is at or
below it. -/
theorem C5_flap_off_delayed (cfg : PhysicsConfig) (v : ℝ) (anim : AnimState)
    (h : v ≤ cfg.flappingThreshold) :
    (updateFlapping cfg v anim).1 = anim ∧
    (updateFlapping cfg v anim).2 = [⟨v, 150⟩] ∧
    (∀ pending : List Timer, ∀ t ∈ pending,
        t ∈ pending ++ (updateFlapping cfg v anim).2) ∧
    (∀ cfg2 : PhysicsConfig, ∀ anim2 : AnimState,
        v ≤ cfg2.flappingThreshold →
        fireFlapTimer cfg2 ⟨v, 150⟩ anim2 =
          { anim2 with isFlapping := false, flapIntensity := 1 }) ∧
    (∀ cfg2 : PhysicsConfig, ∀ anim2 : AnimState,
        ¬ v ≤ cfg2.flappingThreshold →
        fireFlapTimer cfg2 ⟨v, 150⟩ anim2 = anim2) := by
  have hnot : ¬ v > cfg.flappingThreshold := not_lt.2 h
  refine ⟨?_, ?_, ?_, ?_, ?_⟩
  · unfold updateFlapping; rw [if_neg hnot]
  · unfold updateFlapping; rw [if_neg hnot]
  · intro pending t ht
    exact List.mem_append_left _ ht
  · intro cfg2 anim2 h2
    unfold fireFlapTimer
    rw [if_pos h2]
  · intro cfg2 anim2 h2
    unfold fireFlapTimer
    rw [if_neg h2]

/-- Witness for C5 at the default configuration with velocity magnitude 1. -/
theorem C5_flap_off_delayed_witness :
    (1 : ℝ) ≤ defaultConfig.flappingThreshold ∧
    ((updateFlapping defaultConfig 1 initialAnimState).1 = initialAnimState ∧
     (updateFlapping defaultConfig 1 initialAnimState).2 = [⟨1, 150⟩] ∧
     (∀ pending : List Timer, ∀ t ∈ pending,
        t ∈ pending ++ (updateFlapping defaultConfig 1 initialAnimState).2) ∧
     (∀ cfg2 : PhysicsConfig, ∀ anim2 : AnimState,
        (1 : ℝ) ≤ cfg2.flappingThreshold →
        fireFlapTimer cfg2 ⟨1, 150⟩ anim2 =
          { anim2 with isFlapping := false, flapIntensity := 1 }) ∧
     (∀ cfg2 : PhysicsConfig, ∀ anim2 : AnimState,
        ¬ (1 : ℝ) ≤ cfg2.flappingThreshold →
        fireFlapTimer cfg2 ⟨1, 150⟩ anim2 = anim2)) := by
  refine ⟨by norm_num [defaultConfig], ?_⟩
  exact C5_flap_off_delayed defaultConfig 1 initialAnimState
    (by norm_num [defaultConfig])

/-- C7: `updatePhysicsConfig` is a partial merge — for every prior config and
every partial update, a field absent from the update keeps its prior value
and a field present in the update takes the updated value; and a known
preset overwrites the config with the preset's (complete) field set. -/
theorem C7_config_partial_merge (cfg : PhysicsConfig) (p : ConfigPatch) :
    (p.springStrength = none →
      (updatePhysicsConfig cfg p).springStrength = cfg.springStrength) ∧
    (∀ x, p.springStrength = some x →
      (updatePhysicsConfig cfg p).springStrength = x) ∧
    (p.dampening = none →
      (updatePhysicsConfig cfg p).dampening = cfg.dampening) ∧
    (∀ x, p.dampening = some x → (updatePhysicsConfig cfg p).dampening = x) ∧
    (p.maxSpeed = none → (updatePhysicsConfig cfg p).maxSpeed = cfg.maxSpeed) ∧
    (∀ x, p.maxSpeed = some x → (updatePhysicsConfig cfg p).maxSpeed = x) ∧
    (p.accelerationRate = none →
      (updatePhysicsConfig cfg p).accelerationRate = cfg.accelerationRate) ∧
    (∀ x, p.accelerationRate = some x →
      (updatePhysicsConfig cfg p).accelerationRate = x) ∧
    (p.flappingThreshold = none →
      (updatePhysicsConfig cfg p).flappingThreshold = cfg.flappingThreshold) ∧
    (∀ x, p.flappingThreshold = some x →
      (updatePhysicsConfig cfg p).flappingThreshold = x) ∧
    (p.baseScale = none →
      (updatePhysicsConfig cfg p).baseScale = cfg.baseScale) ∧
    (∀ x, p.baseScale = some x → (updatePhysicsConfig cfg p).baseScale = x) ∧
    (∀ st : SystemState, ∀ name pre, presetLookup name = some pre →
      (setPreset name st).1.config = pre) := by
  refine ⟨?_, ?_, ?_, ?_, ?_, ?_, ?_, ?_, ?_, ?_, ?_, ?_, ?_⟩
  all_goals
    first
    | (intro h; simp [updatePhysicsConfig, h])
    | (intro x h; simp [updatePhysicsConfig, h])
    | (intro st name pre h; simp [setPreset, h])

/-- Witness for C7: updating the default config with a patch naming only
`maxSpeed := 20` sets `maxSpeed` to 20 and keeps `springStrength`. -/
theorem C7_config_partial_merge_witness :
    (updatePhysicsConfig defaultConfig ⟨none, none, some 20, none, none, none⟩).springStrength
        = defaultConfig.springStrength ∧
    (updatePhysicsConfig defaultConfig ⟨none, none, some 20, none, none, none⟩).maxSpeed
        = 20 := by
  constructor
  · exact (C7_config_partial_merge defaultConfig
      ⟨none, none, some 20, none, none, none⟩).1 rfl
  · exact (C7_config_partial_merge defaultConfig
      ⟨none, none, some 20, none, none, none⟩).2.2.2.2.2.1 20 rfl

/-- C10: with a configuration in the spec's data-model domain (all values
positive, here only `0 ≤ maxSpeed` is needed), the rest state — position at
the target, zero velocity and zero acceleration — is an exact fixed point of
one physics step. -/
theorem C10_rest_fixed_point (cfg : PhysicsConfig) (st : PhysState)
    (anim : AnimState) (hms : 0 ≤ cfg.maxSpeed) (hp : st.position = st.target)
    (hv : st.velocity = ⟨0, 0⟩) (ha : st.acceleration = ⟨0, 0⟩) :
    (updatePhysics cfg st anim).1.position = st.position ∧
    (updatePhysics cfg st anim).1.velocity = st.velocity ∧
    (updatePhysics cfg st anim).1.acceleration = st.acceleration := by
  have hax : smoothAccel cfg (st.target.x - st.position.x) st.acceleration.x = 0 := by
    rw [hp, ha]; unfold smoothAccel; ring
  have hay : smoothAccel cfg (st.target.y - st.position.y) st.acceleration.y = 0 := by
    rw [hp, ha]; unfold smoothAccel; ring
  have hvel : (updatePhysics cfg st anim).1.velocity = ⟨0, 0⟩ := by
    rw [updatePhysics_velocity, hax, hay, hv]
    show clampVelocity cfg ⟨springDamp cfg 0 0, springDamp cfg 0 0⟩ = _
    rw [springDamp_zero]
    exact clampVelocity_of_le (by rw [speedOf_single]; simpa using hms)
  refine ⟨?_, by rw [hvel, hv], by rw [updatePhysics_acceleration, hax, hay, ha]⟩
  rw [updatePhysics_position, hvel]
  ext <;> simp

/-- Witness for C10: the default configuration at rest at `(7, 9)`. -/
theorem C10_rest_fixed_point_witness :
    (0 : ℝ) ≤ defaultConfig.maxSpeed ∧
    ((updatePhysics defaultConfig ⟨⟨7, 9⟩, ⟨0, 0⟩, ⟨0, 0⟩, ⟨7, 9⟩⟩
        initialAnimState).1.position = ⟨7, 9⟩ ∧
     (updatePhysics defaultConfig ⟨⟨7, 9⟩, ⟨0, 0⟩, ⟨0, 0⟩, ⟨7, 9⟩⟩
        initialAnimState).1.velocity = ⟨0, 0⟩ ∧
     (updatePhysics defaultConfig ⟨⟨7, 9⟩, ⟨0, 0⟩, ⟨0, 0⟩, ⟨7, 9⟩⟩
        initialAnimState).1.acceleration = ⟨0, 0⟩) := by
  refine ⟨by norm_num [defaultConfig], ?_⟩
  exact C10_rest_fixed_point defaultConfig ⟨⟨7, 9⟩, ⟨0, 0⟩, ⟨0, 0⟩, ⟨7, 9⟩⟩
    initialAnimState (by norm_num [defaultConfig]) rfl rfl rfl

/-- C2: from position `(0,0)`, target `(100,0)`, zero velocity and zero
acceleration under the default configuration, one physics step gives exactly
`acceleration.x = 2`, `velocity.x = 0.204` and `position.x = 0.204`. -/
theorem C2_first_tick_scenario :
    (updatePhysics defaultConfig ⟨⟨0, 0⟩, ⟨0, 0⟩, ⟨0, 0⟩, ⟨100, 0⟩⟩
        initialAnimState).1.acceleration.x = 2 ∧
    (updatePhysics defaultConfig ⟨⟨0, 0⟩, ⟨0, 0⟩, ⟨0, 0⟩, ⟨100, 0⟩⟩
        initialAnimState).1.velocity.x = 0.204 ∧
    (updatePhysics defaultConfig ⟨⟨0, 0⟩, ⟨0, 0⟩, ⟨0, 0⟩, ⟨100, 0⟩⟩
        initialAnimState).1.position.x = 0.204 := by
  have hax : smoothAccel defaultConfig ((100 : ℝ) - 0) 0 = 2 := by
    unfold smoothAccel defaultConfig; norm_num
  have hay : smoothAccel defaultConfig ((0 : ℝ) - 0) 0 = 0 := by
    unfold smoothAccel; ring
  have hvx : springDamp defaultConfig 0 2 = 0.204 := by
    unfold springDamp defaultConfig; norm_num
  have hvel : (updatePhysics defaultConfig ⟨⟨0, 0⟩, ⟨0, 0⟩, ⟨0, 0⟩, ⟨100, 0⟩⟩
      initialAnimState).1.velocity = ⟨0.204, 0⟩ := by
    rw [updatePhysics_velocity]
    show clampVelocity defaultConfig
      ⟨springDamp defaultConfig 0 (smoothAccel defaultConfig (100 - 0) 0),
       springDamp defaultConfig 0 (smoothAccel defaultConfig (0 - 0) 0)⟩ = _
    rw [hax, hay, hvx, springDamp_zero]
    exact clampVelocity_of_le
      (by rw [speedOf_single, abs_of_nonneg (by norm_num : (0 : ℝ) ≤ 0.204)]
          norm_num [defaultConfig])
  refine ⟨?_, by rw [hvel], ?_⟩
  · rw [updatePhysics_acceleration]
    show smoothAccel defaultConfig (100 - 0) 0 = 2
    exact hax
  · rw [updatePhysics_position, hvel]
    show (0 : ℝ) + 0.204 = 0.204
    norm_num

/-- C3: with a positive `maxSpeed` (the spec's data-model domain), whenever
the pre-clamp speed exceeds `maxSpeed` the clamped velocity has magnitude
exactly `maxSpeed` with its unit vector unchanged, and consequently the
velocity produced by every physics step has magnitude at most `maxSpeed`. -/
theorem C3_speed_clamp (cfg : PhysicsConfig) (v : Vec2) (st : PhysState)
    (anim : AnimState) (hms : 0 < cfg.maxSpeed) :
    (speedOf v > cfg.maxSpeed →
      speedOf (clampVelocity cfg v) = cfg.maxSpeed ∧
      (clampVelocity cfg v).x / speedOf (clampVelocity cfg v) = v.x / speedOf v ∧
      (clampVelocity cfg v).y / speedOf (clampVelocity cfg v) = v.y / speedOf v) ∧
    speedOf (updatePhysics cfg st anim).1.velocity ≤ cfg.maxSpeed := by
  constructor
  · intro h
    have hv : 0 < speedOf v := hms.trans h
    have hcl : clampVelocity cfg v =
        ⟨v.x * (cfg.maxSpeed / speedOf v), v.y * (cfg.maxSpeed / speedOf v)⟩ := by
      unfold clampVelocity; rw [if_pos h]
    have hsp : speedOf (clampVelocity cfg v) = cfg.maxSpeed := by
      rw [hcl, speedOf_smul, abs_of_nonneg (div_nonneg hms.le hv.le),
        div_mul_cancel₀ _ hv.ne']
    refine ⟨hsp, ?_, ?_⟩
    · rw [hsp, hcl]
      show v.x * (cfg.maxSpeed / speedOf v) / cfg.maxSpeed = v.x / speedOf v
      field_simp
      ring
    · rw [hsp, hcl]
      show v.y * (cfg.maxSpeed / speedOf v) / cfg.maxSpeed = v.y / speedOf v
      field_simp
      ring
  · rw [updatePhysics_velocity]
    exact clampVelocity_speed_le hms.le _

/-- Witness for C3: the default configuration, the velocity `(30, 40)` of
magnitude 50 > 15, and the rest state for the post-step bound. -/
theorem C3_speed_clamp_witness :
    (0 : ℝ) < defaultConfig.maxSpeed ∧
    ((speedOf ⟨30, 40⟩ > defaultConfig.maxSpeed →
       speedOf (clampVelocity defaultConfig ⟨30, 40⟩) = defaultConfig.maxSpeed ∧
       (clampVelocity defaultConfig ⟨30, 40⟩).x /
           speedOf (clampVelocity defaultConfig ⟨30, 40⟩) =
         (Vec2.mk 30 40).x / speedOf ⟨30, 40⟩ ∧
       (clampVelocity defaultConfig ⟨30, 40⟩).y /
           speedOf (clampVelocity defaultConfig ⟨30, 40⟩) =
         (Vec2.mk 30 40).y / speedOf ⟨30, 40⟩) ∧
     speedOf (updatePhysics defaultConfig ⟨⟨0, 0⟩, ⟨0, 0⟩, ⟨0, 0⟩, ⟨0, 0⟩⟩
        initialAnimState).1.velocity ≤ defaultConfig.maxSpeed) ∧
    speedOf ⟨30, 40⟩ > defaultConfig.maxSpeed := by
  refine ⟨by norm_num [defaultConfig], ?_, ?_⟩
  · exact C3_speed_clamp defaultConfig ⟨30, 40⟩ ⟨⟨0, 0⟩, ⟨0, 0⟩, ⟨0, 0⟩, ⟨0, 0⟩⟩
      initialAnimState (by norm_num [defaultConfig])
  · unfold speedOf
    rw [show (Vec2.mk 30 40).x ^ 2 + (Vec2.mk 30 40).y ^ 2 = (50 : ℝ) ^ 2 by norm_num,
      Real.sqrt_sq (by norm_num)]
    norm_num [defaultConfig]

/-- C6: in every physics step the `direction` field keeps its prior value
whenever the updated `velocity.x` is within the dead zone `|velocity.x| ≤
0.1` (in particular throughout `(-0.1, 0.1)`), and it is set to the sign of
`velocity.x` exactly when `|velocity.x| > 0.1`. -/
theorem C6_direction_dead_zone (cfg : PhysicsConfig) (st : PhysState)
    (anim : AnimState) :
    (|(updatePhysics cfg st anim).1.velocity.x| ≤ 0.1 →
      (updatePhysics cfg st anim).2.1.direction = anim.direction) ∧
    (|(updatePhysics cfg st anim).1.velocity.x| > 0.1 →
      (updatePhysics cfg st anim).2.1.direction =
        (if (updatePhysics cfg st anim).1.velocity.x > 0 then (1 : ℝ) else -1)) := by
  constructor
  · intro h
    rw [updatePhysics_direction, if_neg (not_lt.2 h)]
  · intro h
    rw [updatePhysics_direction, if_pos h]

/-- Witness for C6: a rest state under the default configuration keeps the
prior direction since the updated `velocity.x` is 0. -/
theorem C6_direction_dead_zone_witness :
    |(updatePhysics defaultConfig ⟨⟨0, 0⟩, ⟨0, 0⟩, ⟨0, 0⟩, ⟨0, 0⟩⟩
        initialAnimState).1.velocity.x| ≤ 0.1 ∧
    (updatePhysics defaultConfig ⟨⟨0, 0⟩, ⟨0, 0⟩, ⟨0, 0⟩, ⟨0, 0⟩⟩
        initialAnimState).2.1.direction = initialAnimState.direction := by
  have hvel : (updatePhysics defaultConfig ⟨⟨0, 0⟩, ⟨0, 0⟩, ⟨0, 0⟩, ⟨0, 0⟩⟩
      initialAnimState).1.velocity = ⟨0, 0⟩ := by
    rw [updatePhysics_velocity]
    show clampVelocity defaultConfig
      ⟨springDamp defaultConfig 0 (smoothAccel defaultConfig (0 - 0) 0),
       springDamp defaultConfig 0 (smoothAccel defaultConfig (0 - 0) 0)⟩ = _
    rw [smoothAccel_zero, springDamp_zero]
    exact clampVelocity_of_le
      (by rw [speedOf_single]; norm_num [defaultConfig])
  have habs : |(updatePhysics defaultConfig ⟨⟨0, 0⟩, ⟨0, 0⟩, ⟨0, 0⟩, ⟨0, 0⟩⟩
      initialAnimState).1.velocity.x| ≤ 0.1 := by
    rw [hvel]; norm_num
  exact ⟨habs, (C6_direction_dead_zone defaultConfig
    ⟨⟨0, 0⟩, ⟨0, 0⟩, ⟨0, 0⟩, ⟨0, 0⟩⟩ initialAnimState).1 habs⟩

/-- C8 counterexample: with only the theme class `robin` applied, calling
`setTheme` with the unknown name `sparrow` does warn, but the previously
selected theme class does NOT remain applied — the class list ends up empty,
because the code removes every theme class before checking whether the
requested name is known. -/
theorem C8_unknown_theme_counterexample :
    "sparrow" ∉ themeNames ∧
    (setThemeClasses ["robin"] "sparrow").2 = true ∧
    "robin" ∉ (setThemeClasses ["robin"] "sparrow").1 ∧
    (setThemeClasses ["robin"] "sparrow").1 = [] := by
  refine ⟨by decide, by decide, by decide, by decide⟩

/-- C8 as amended: for every unknown theme name, `setTheme`'s class-list
update warns and removes every theme class without applying a new one (the
prior selection is cleared rather than retained); classes that are not theme
names survive untouched. -/
theorem C8_unknown_theme_amended (cls : List String) (name : String)
    (h : name ∉ themeNames) :
    (setThemeClasses cls name).2 = true ∧
    (∀ t ∈ themeNames, t ∉ (setThemeClasses cls name).1) ∧
    (∀ c ∈ cls, c ∉ themeNames → c ∈ (setThemeClasses cls name).1) := by
  unfold setThemeClasses
  rw [if_neg h]
  refine ⟨rfl, ?_, ?_⟩
  · intro t ht
    fin_cases ht <;>
      simp [themeNames, classListRemove, List.mem_filter]
  · intro c hc hcn
    simp only [themeNames, List.mem_cons, List.not_mem_nil, or_false,
      not_or] at hcn
    simp [themeNames, classListRemove, List.mem_filter, hc, hcn.1, hcn.2.1,
      hcn.2.2]

/-- Witness for C8 as amended: the unknown name `sparrow` on a container
carrying the theme class `bluebird` and the non-theme class `bird-container`. -/
theorem C8_unknown_theme_amended_witness :
    "sparrow" ∉ themeNames ∧
    ((setThemeClasses ["bluebird", "bird-container"] "sparrow").2 = true ∧
     (∀ t ∈ themeNames,
        t ∉ (setThemeClasses ["bluebird", "bird-container"] "sparrow").1) ∧
     (∀ c ∈ (["bluebird", "bird-container"] : List String), c ∉ themeNames →
        c ∈ (setThemeClasses ["bluebird", "bird-container"] "sparrow").1)) := by
  refine ⟨by decide, ?_⟩
  exact C8_unknown_theme_amended ["bluebird", "bird-container"] "sparrow"
    (by decide)

/-- C9 counterexample: after an `init` that fails for missing render targets,
the system is indeed not initialized, yet `setPreset` is not a no-op — it
still overwrites the config (`maxSpeed` jumps from the constructor's 15 to
the `energetic` preset's 20), because neither `setPreset` nor
`updatePhysicsConfig` checks `isInitialized`. -/
theorem C9_failed_init_counterexample :
    (init false freshSystem).isInitialized = false ∧
    (init false freshSystem).config.maxSpeed = 15 ∧
    (setPreset "energetic" (init false freshSystem)).1.config.maxSpeed = 20 ∧
    (updatePhysicsConfig (init false freshSystem).config
        ⟨none, none, some 20, none, none, none⟩).maxSpeed = 20 := by
  have hinit : init false freshSystem = freshSystem := by
    unfold init freshSystem
    norm_num
  refine ⟨by rw [hinit]; rfl, ?_, ?_, ?_⟩
  · rw [hinit]
    show defaultConfig.maxSpeed = 15
    unfold defaultConfig
    norm_num
  · rw [hinit]
    show (setPreset "energetic" freshSystem).1.config.maxSpeed = 20
    unfold setPreset presetLookup
    norm_num
  · rfl

/-- C9 as amended: when `init` fails because the render targets are absent it
changes nothing and the system stays not-initialized, and `setTheme` is then
a no-op because the container is absent — but `setPreset` with a known preset
and `updatePhysicsConfig` are not gated on initialization and still modify
the config. -/
theorem C9_failed_init_amended (st : SystemState)
    (hinit : st.isInitialized = false) (htgt : st.hasRenderTargets = false) :
    init false st = st ∧
    (init false st).isInitialized = false ∧
    (∀ name, (setTheme name st).1 = st) ∧
    (∀ name pre, presetLookup name = some pre →
      (setPreset name st).1.config = pre) ∧
    (∀ x, (updatePhysicsConfig st.config
        ⟨none, none, some x, none, none, none⟩).maxSpeed = x) := by
  have h1 : init false st = st := by
    unfold init
    rw [hinit]
    norm_num
  refine ⟨h1, by rw [h1, hinit], ?_, ?_, ?_⟩
  · intro name
    unfold setTheme
    rw [htgt]
    norm_num
  · intro name pre h
    unfold setPreset
    rw [h]
  · intro x
    rfl

/-- Witness for C9 as amended: the freshly constructed system after a failed
`init`. -/
theorem C9_failed_init_amended_witness :
    freshSystem.isInitialized = false ∧ freshSystem.hasRenderTargets = false ∧
    (init false freshSystem = freshSystem ∧
     (init false freshSystem).isInitialized = false ∧
     (∀ name, (setTheme name freshSystem).1 = freshSystem) ∧
     (∀ name pre, presetLookup name = some pre →
        (setPreset name freshSystem).1.config = pre) ∧
     (∀ x, (updatePhysicsConfig freshSystem.config
        ⟨none, none, some x, none, none, none⟩).maxSpeed = x)) := by
  refine ⟨rfl, rfl, ?_⟩
  exact C9_failed_init_amended freshSystem rfl rfl

/-! ### C1: convergence of the integrator -/

lemma oscillate_step (σ : ℝ) (hσ : σ ^ 2 = 1) (anim : AnimState) :
    (updatePhysics cfgOscillate ⟨⟨σ, 0⟩, ⟨2 * σ, 0⟩, ⟨σ / 19, 0⟩, ⟨0, 0⟩⟩ anim).1 =
      ⟨⟨-σ, 0⟩, ⟨2 * -σ, 0⟩, ⟨-σ / 19, 0⟩, ⟨0, 0⟩⟩ := by
  have habs : |σ| = 1 := by
    rcases mul_eq_zero.1
        (show (σ - 1) * (σ + 1) = 0 by linear_combination hσ) with h | h
    · rw [show σ = 1 by linarith]; norm_num
    · rw [show σ = -1 by linarith]; norm_num
  have hax : smoothAccel cfgOscillate ((0 : ℝ) - σ) (σ / 19) = -σ / 19 := by
    simp only [smoothAccel, cfgOscillate]; ring
  have hay : smoothAccel cfgOscillate ((0 : ℝ) - 0) 0 = 0 := smoothAccel_zero _
  have hvx : springDamp cfgOscillate (2 * σ) (-σ / 19) = 2 * -σ := by
    simp only [springDamp, cfgOscillate]; ring
  have hvel : (updatePhysics cfgOscillate
      ⟨⟨σ, 0⟩, ⟨2 * σ, 0⟩, ⟨σ / 19, 0⟩, ⟨0, 0⟩⟩ anim).1.velocity = ⟨2 * -σ, 0⟩ := by
    rw [updatePhysics_velocity]
    show clampVelocity cfgOscillate
      ⟨springDamp cfgOscillate (2 * σ) (smoothAccel cfgOscillate (0 - σ) (σ / 19)),
       springDamp cfgOscillate 0 (smoothAccel cfgOscillate (0 - 0) 0)⟩ = _
    rw [hax, hay, hvx, springDamp_zero]
    refine clampVelocity_of_le ?_
    rw [speedOf_single, abs_mul, abs_neg, habs]
    norm_num [cfgOscillate]
  have hpos : (updatePhysics cfgOscillate
      ⟨⟨σ, 0⟩, ⟨2 * σ, 0⟩, ⟨σ / 19, 0⟩, ⟨0, 0⟩⟩ anim).1.position = ⟨-σ, 0⟩ := by
    rw [updatePhysics_position, hvel]
    show (⟨σ + 2 * -σ, 0 + 0⟩ : Vec2) = _
    simp only [Vec2.mk.injEq]
    exact ⟨by ring, by ring⟩
  have hacc : (updatePhysics cfgOscillate
      ⟨⟨σ, 0⟩, ⟨2 * σ, 0⟩, ⟨σ / 19, 0⟩, ⟨0, 0⟩⟩ anim).1.acceleration = ⟨-σ / 19, 0⟩ := by
    rw [updatePhysics_acceleration]
    show (⟨smoothAccel cfgOscillate (0 - σ) (σ / 19),
          smoothAccel cfgOscillate (0 - 0) 0⟩ : Vec2) = _
    rw [hax, hay]
  have heta : (updatePhysics cfgOscillate
      ⟨⟨σ, 0⟩, ⟨2 * σ, 0⟩, ⟨σ / 19, 0⟩, ⟨0, 0⟩⟩ anim).1 =
      ⟨(updatePhysics cfgOscillate
          ⟨⟨σ, 0⟩, ⟨2 * σ, 0⟩, ⟨σ / 19, 0⟩, ⟨0, 0⟩⟩ anim).1.position,
       (updatePhysics cfgOscillate
          ⟨⟨σ, 0⟩, ⟨2 * σ, 0⟩, ⟨σ / 19, 0⟩, ⟨0, 0⟩⟩ anim).1.velocity,
       (updatePhysics cfgOscillate
          ⟨⟨σ, 0⟩, ⟨2 * σ, 0⟩, ⟨σ / 19, 0⟩, ⟨0, 0⟩⟩ anim).1.acceleration,
       (updatePhysics cfgOscillate
          ⟨⟨σ, 0⟩, ⟨2 * σ, 0⟩, ⟨σ / 19, 0⟩, ⟨0, 0⟩⟩ anim).1.target⟩ := rfl
  rw [heta, hpos, hvel, hacc, updatePhysics_target]

lemma oscillate_closed (n : ℕ) :
    (ticks cfgOscillate (stOscillate, initialAnimState) n).1 =
      ⟨⟨(-1) ^ n, 0⟩, ⟨2 * (-1) ^ n, 0⟩, ⟨(-1) ^ n / 19, 0⟩, ⟨0, 0⟩⟩ := by
  induction n with
  | zero => norm_num [ticks, stOscillate]
  | succ n ih =>
    have h2 : ((-1 : ℝ) ^ n) ^ 2 = 1 := by
      rw [← pow_mul, mul_comm, pow_mul]; norm_num
    have e1 : ((-1 : ℝ)) ^ (n + 1) = -((-1 : ℝ) ^ n) := by ring
    rw [show ticks cfgOscillate (stOscillate, initialAnimState) (n + 1) =
        stepSystem cfgOscillate
          (ticks cfgOscillate (stOscillate, initialAnimState) n) from rfl,
      show (stepSystem cfgOscillate
          (ticks cfgOscillate (stOscillate, initialAnimState) n)).1 =
        (updatePhysics cfgOscillate
          (ticks cfgOscillate (stOscillate, initialAnimState) n).1
          (ticks cfgOscillate (stOscillate, initialAnimState) n).2).1 from rfl,
      ih, e1]
    exact oscillate_step ((-1) ^ n) h2 _

/-- C1 counterexample: for the configuration `cfgOscillate`, whose dampening
`1/2` lies strictly between 0 and 1, with the target fixed at the origin and
the initial state `stOscillate`, the iterated physics step does NOT make the
position converge to the target: the x-position alternates between 1 and -1
forever (`updatePhysics` has an exact period-2 orbit). -/
theorem C1_convergence_counterexample :
    (0 < cfgOscillate.dampening ∧ cfgOscillate.dampening < 1) ∧
    ¬ Filter.Tendsto
        (fun n => (ticks cfgOscillate (stOscillate, initialAnimState) n).1.position.x)
        Filter.atTop (nhds stOscillate.target.x) := by
  constructor
  · constructor <;> norm_num [cfgOscillate]
  · intro h
    have hfun : (fun n =>
        (ticks cfgOscillate (stOscillate, initialAnimState) n).1.position.x)
        = fun n => ((-1 : ℝ)) ^ n := by
      funext n
      rw [oscillate_closed n]
    rw [hfun, show stOscillate.target.x = 0 from rfl] at h
    have h2 : Filter.Tendsto (fun k : ℕ => 2 * k) Filter.atTop Filter.atTop :=
      Filter.tendsto_atTop_atTop.2 (fun b => ⟨b, fun a ha => by omega⟩)
    have h3 := h.comp h2
    have h4 : ((fun n => ((-1 : ℝ)) ^ n) ∘ (fun k : ℕ => 2 * k))
        = fun _ => (1 : ℝ) := by
      funext k
      simp [Function.comp, pow_mul]
    rw [h4] at h3
    have h5 := tendsto_nhds_unique h3 tendsto_const_nhds
    norm_num at h5

lemma converge_step (t : ℝ) (h0 : 0 ≤ t) (h1 : t ≤ 1) (anim : AnimState) :
    (updatePhysics cfgConverge ⟨⟨t, 0⟩, ⟨-(t / 4), 0⟩, ⟨t / 5, 0⟩, ⟨0, 0⟩⟩ anim).1 =
      ⟨⟨4 / 5 * t, 0⟩, ⟨-(4 / 5 * t / 4), 0⟩, ⟨4 / 5 * t / 5, 0⟩, ⟨0, 0⟩⟩ := by
  have hax : smoothAccel cfgConverge ((0 : ℝ) - t) (t / 5) = 4 / 5 * t / 5 := by
    simp only [smoothAccel, cfgConverge]; ring
  have hay : smoothAccel cfgConverge ((0 : ℝ) - 0) 0 = 0 := smoothAccel_zero _
  have hvx : springDamp cfgConverge (-(t / 4)) (4 / 5 * t / 5) = -(4 / 5 * t / 4) := by
    simp only [springDamp, cfgConverge]; ring
  have hvel : (updatePhysics cfgConverge
      ⟨⟨t, 0⟩, ⟨-(t / 4), 0⟩, ⟨t / 5, 0⟩, ⟨0, 0⟩⟩ anim).1.velocity
      = ⟨-(4 / 5 * t / 4), 0⟩ := by
    rw [updatePhysics_velocity]
    show clampVelocity cfgConverge
      ⟨springDamp cfgConverge (-(t / 4)) (smoothAccel cfgConverge (0 - t) (t / 5)),
       springDamp cfgConverge 0 (smoothAccel cfgConverge (0 - 0) 0)⟩ = _
    rw [hax, hay, hvx, springDamp_zero]
    refine clampVelocity_of_le ?_
    rw [speedOf_single, abs_neg, abs_of_nonneg (by linarith : (0 : ℝ) ≤ 4 / 5 * t / 4),
      show cfgConverge.maxSpeed = 15 from rfl]
    linarith
  have hpos : (updatePhysics cfgConverge
      ⟨⟨t, 0⟩, ⟨-(t / 4), 0⟩, ⟨t / 5, 0⟩, ⟨0, 0⟩⟩ anim).1.position
      = ⟨4 / 5 * t, 0⟩ := by
    rw [updatePhysics_position, hvel]
    show (⟨t + -(4 / 5 * t / 4), 0 + 0⟩ : Vec2) = _
    simp only [Vec2.mk.injEq]
    exact ⟨by ring, by ring⟩
  have hacc : (updatePhysics cfgConverge
      ⟨⟨t, 0⟩, ⟨-(t / 4), 0⟩, ⟨t / 5, 0⟩, ⟨0, 0⟩⟩ anim).1.acceleration
      = ⟨4 / 5 * t / 5, 0⟩ := by
    rw [updatePhysics_acceleration]
    show (⟨smoothAccel cfgConverge (0 - t) (t / 5),
          smoothAccel cfgConverge (0 - 0) 0⟩ : Vec2) = _
    rw [hax, hay]
  have heta : (updatePhysics cfgConverge
      ⟨⟨t, 0⟩, ⟨-(t / 4), 0⟩, ⟨t / 5, 0⟩, ⟨0, 0⟩⟩ anim).1 =
      ⟨(updatePhysics cfgConverge
          ⟨⟨t, 0⟩, ⟨-(t / 4), 0⟩, ⟨t / 5, 0⟩, ⟨0, 0⟩⟩ anim).1.position,
       (updatePhysics cfgConverge
          ⟨⟨t, 0⟩, ⟨-(t / 4), 0⟩, ⟨t / 5, 0⟩, ⟨0, 0⟩⟩ anim).1.velocity,
       (updatePhysics cfgConverge
          ⟨⟨t, 0⟩, ⟨-(t / 4), 0⟩, ⟨t / 5, 0⟩, ⟨0, 0⟩⟩ anim).1.acceleration,
       (updatePhysics cfgConverge
          ⟨⟨t, 0⟩, ⟨-(t / 4), 0⟩, ⟨t / 5, 0⟩, ⟨0, 0⟩⟩ anim).1.target⟩ := rfl
  rw [heta, hpos, hvel, hacc, updatePhysics_target]

lemma converge_closed (n : ℕ) :
    (ticks cfgConverge (stConverge, initialAnimState) n).1 =
      ⟨⟨(4 / 5) ^ n, 0⟩, ⟨-((4 / 5) ^ n / 4), 0⟩, ⟨(4 / 5) ^ n / 5, 0⟩, ⟨0, 0⟩⟩ := by
  induction n with
  | zero => norm_num [ticks, stConverge]
  | succ n ih =>
    have h0 : (0 : ℝ) ≤ (4 / 5) ^ n := pow_nonneg (by norm_num) n
    have h1 : ((4 : ℝ) / 5) ^ n ≤ 1 := pow_le_one₀ (by norm_num) (by norm_num)
    have e1 : ((4 : ℝ) / 5) ^ (n + 1) = 4 / 5 * (4 / 5) ^ n := by ring
    rw [show ticks cfgConverge (stConverge, initialAnimState) (n + 1) =
        stepSystem cfgConverge
          (ticks cfgConverge (stConverge, initialAnimState) n) from rfl,
      show (stepSystem cfgConverge
          (ticks cfgConverge (stConverge, initialAnimState) n)).1 =
        (updatePhysics cfgConverge
          (ticks cfgConverge (stConverge, initialAnimState) n).1
          (ticks cfgConverge (stConverge, initialAnimState) n).2).1 from rfl,
      ih, e1]
    exact converge_step ((4 / 5) ^ n) h0 h1 _

/-- C1 as amended: convergence of the position to a fixed target under
iterated `updatePhysics` is not universal over configurations with dampening
in `(0,1)` (see the period-2 counterexample), but it does hold for suitable
configurations and initial states: for `cfgConverge` — dampening `0.85 ∈
(0,1)` — with the target fixed at the origin and initial state `stConverge`,
both position coordinates converge to the target as the tick count goes to
infinity. -/
theorem C1_convergence_amended :
    (0 < cfgConverge.dampening ∧ cfgConverge.dampening < 1) ∧
    Filter.Tendsto
      (fun n => (ticks cfgConverge (stConverge, initialAnimState) n).1.position.x)
      Filter.atTop (nhds stConverge.target.x) ∧
    Filter.Tendsto
      (fun n => (ticks cfgConverge (stConverge, initialAnimState) n).1.position.y)
      Filter.atTop (nhds stConverge.target.y) := by
  refine ⟨⟨by norm_num [cfgConverge], by norm_num [cfgConverge]⟩, ?_, ?_⟩
  · have hfun : (fun n =>
        (ticks cfgConverge (stConverge, initialAnimState) n).1.position.x)
        = fun n => ((4 : ℝ) / 5) ^ n := by
      funext n
      rw [converge_closed n]
    rw [hfun, show stConverge.target.x = 0 from rfl]
    exact tendsto_pow_atTop_nhds_zero_of_lt_one (by norm_num) (by norm_num)
  · have hfun : (fun n =>
        (ticks cfgConverge (stConverge, initialAnimState) n).1.position.y)
        = fun _ => (0 : ℝ) := by
      funext n
      rw [converge_closed n]
    rw [hfun, show stConverge.target.y = 0 from rfl]
    exact tendsto_const_nhds

end BirdCursor
